import Mathlib

/-!
# Verification of the kontrategy-backend job orchestration core

Shallow embedding of `src/main.py`: the rate limiter (`rate_limit`), the
job store (Redis `setex`/`get` on `job:<id>` keys), the external-task poll
loop (`wait_for_apify_run`), the scoring request construction
(`analyze_with_gpt`), the analysis pipeline and its executor boundary
(`run_analysis`), and the HTTP-facing operations (`start_analysis`,
`analysis_status`).

Modelling conventions:
* Redis entries are modelled per key family.  A key is alive at time `now`
  iff `now < expiresAt`; an expired key behaves exactly like an absent one.
* Time is a `Nat` of seconds, passed explicitly to each store operation.
* Python exceptions are modelled with `Except String`: each network helper
  that the pipeline calls (`start_apify_task`, `wait_for_apify_run`,
  `get_apify_dataset`, the OpenAI call plus `json.loads`) is abstracted as
  an environment function returning `Except String _`, so that every
  failure mode of the real code is a value the pipeline propagates.
* Python floats: `total_score = round(sum(scores.values()) / 5 * 10, 1)`
  is modelled over `ℚ` with Python's banker's rounding (`pyRound1`).  For
  integer score sums `s`, `s / 5 * 10` differs from the exact rational
  `2 * s` by at most a few ulps, and `round(·, 1)` of a float within
  `1e-13` of the integer `2 * s ≤ 50` returns exactly that integer, so the
  rational model computes the same value the float code does.
-/

/-! ## Python string helpers (`username.replace("@", "").strip()`) -/

/-- Characters removed by Python `str.strip()` (ASCII whitespace). -/
def pyIsSpace (c : Char) : Bool :=
  c = ' ' || c = '\t' || c = '\n' || c = '\r' || c = '\x0b' || c = '\x0c'

/-- `str.strip()` on the underlying character list. -/
def stripChars (l : List Char) : List Char :=
  ((l.dropWhile pyIsSpace).reverse.dropWhile pyIsSpace).reverse

/-- Python `s.strip()`. -/
def pyStrip (s : String) : String :=
  ⟨stripChars s.data⟩

/-- Python `s.replace("@", "")`: removes every occurrence of `'@'`. -/
def removeAtSigns (s : String) : String :=
  ⟨s.data.filter (fun c => c ≠ '@')⟩

/-- `raw = username.replace("@", "").strip()` (main.py line 161). -/
def normalizeUsername (username : String) : String :=
  pyStrip (removeAtSigns username)

/-- `instagram_url = f"https://www.instagram.com/{raw}/"` (line 162). -/
def instagramUrl (raw : String) : String :=
  "https://www.instagram.com/" ++ raw ++ "/"

/-! ## Rate limiter (`rate_limit`, main.py lines 57-68)

Redis state for the `rate:<ip>` key family.  `INCR` on a live key keeps its
TTL (`expiresAt` unchanged); on an absent/expired key it creates the key
with value 1 and no TTL (`expiresAt = none`).  `EXPIRE key 3600` sets the
TTL to 3600 s from now.  The code always pipelines `INCR` then `EXPIRE`. -/

structure RateEntry where
  count : Nat
  expiresAt : Option Nat
deriving DecidableEq

def RateStore : Type := String → Option RateEntry

def emptyRateStore : RateStore := fun _ => none

/-- Is an entry with this `expiresAt` alive at `now`?  `none` = no TTL. -/
def aliveAt (now : Nat) : Option Nat → Bool
  | none => true
  | some t => decide (now < t)

/-- `redis_client.get(key)` for a rate key: the counter value, if alive. -/
def rateGet (st : RateStore) (now : Nat) (ip : String) : Option Nat :=
  match st ip with
  | some e => if aliveAt now e.expiresAt then some e.count else none
  | none => none

/-- The pipelined `INCR key` + `EXPIRE key 3600` (lines 65-68): increment
the counter (1 if absent/expired) and set the expiry to `now + 3600`. -/
def ratePipeline (st : RateStore) (now : Nat) (ip : String) : RateStore :=
  fun k =>
    if k = ip then
      let newCount :=
        match st ip with
        | some e => if aliveAt now e.expiresAt then e.count + 1 else 1
        | none => 1
      some { count := newCount, expiresAt := some (now + 3600) }
    else st k

inductive RateDecision where
  | allowed
  | denied
deriving DecidableEq

/-- `rate_limit(request)` (lines 57-68): read the counter; if it exists and
is ≥ 5, raise HTTP 429 (modelled as `denied` with the store unchanged —
the raise happens before the increment pipeline runs).  Otherwise run the
`INCR` + `EXPIRE` pipeline and admit. -/
def rate_limit (st : RateStore) (now : Nat) (ip : String) :
    RateDecision × RateStore :=
  match rateGet st now ip with
  | some c =>
      if 5 ≤ c then (RateDecision.denied, st)
      else (RateDecision.allowed, ratePipeline st now ip)
  | none => (RateDecision.allowed, ratePipeline st now ip)

/-! ## Job store (`job:<id>` keys, written only with `SETEX`) -/

/-- The five GPT score dimensions (the `scores` object of the response). -/
structure ScoresObj where
  paleta_colores : Int
  ruido_visual : Int
  consistencia_grafica : Int
  calidad_visual : Int
  presencia_humana : Int
deriving DecidableEq

/-- `sum(analysis["scores"].values())` (line 204). -/
def scoresSum (s : ScoresObj) : Int :=
  s.paleta_colores + s.ruido_visual + s.consistencia_grafica
    + s.calidad_visual + s.presencia_humana

/-- Python `round` to the nearest integer: banker's rounding (half to
even). -/
def pyRoundInt (q : ℚ) : ℤ :=
  let f := ⌊q⌋
  let r := q - (f : ℚ)
  if r < 1 / 2 then f
  else if 1 / 2 < r then f + 1
  else if f % 2 = 0 then f else f + 1

/-- Python `round(x, 1)`. -/
def pyRound1 (q : ℚ) : ℚ :=
  (pyRoundInt (q * 10) : ℚ) / 10

/-- `total_score = round(sum(analysis["scores"].values()) / 5 * 10, 1)`
(main.py line 204). -/
def total_score (s : ScoresObj) : ℚ :=
  pyRound1 ((scoresSum s : ℚ) / 5 * 10)

/-- The parsed GPT response shape (`analysis` at line 202). -/
structure GptAnalysis where
  scores : ScoresObj
  dominant_content_type : String
  interpretation : String
deriving DecidableEq

/-- The `data` payload of a finished job (lines 206-220). -/
structure AnalysisResult where
  username : String
  icon : Option String
  followers : Option Int
  posts : Option Int
  total_score : ℚ
  scores : ScoresObj
  dominant_content_type : String
  interpretation : String
deriving DecidableEq

/-- The job state blob stored under `job:<id>`. -/
inductive JobState where
  | processing
  | done (data : AnalysisResult)
  | error (msg : String)
deriving DecidableEq

def JobState.isTerminal : JobState → Bool
  | .processing => false
  | .done _ => true
  | .error _ => true

structure JobEntry where
  value : JobState
  expiresAt : Nat
deriving DecidableEq

def JobStore : Type := String → Option JobEntry

def emptyJobStore : JobStore := fun _ => none

/-- `redis_client.setex(f"job:{job_id}", ttl, value)`: store the value and
set the expiry to `now + ttl` (refreshing any previous expiry). -/
def jobSetex (js : JobStore) (now : Nat) (jobId : String) (ttl : Nat)
    (v : JobState) : JobStore :=
  fun k => if k = jobId then some { value := v, expiresAt := now + ttl } else js k

/-- `redis_client.get(f"job:{job_id}")`: the stored state, if alive. -/
def jobGet (js : JobStore) (now : Nat) (jobId : String) : Option JobState :=
  match js jobId with
  | some e => if now < e.expiresAt then some e.value else none
  | none => none

/-! ## External-task poll loop (`wait_for_apify_run`, lines 85-103)

The loop body issues one status request, classifies the status, and sleeps
5 s; the guard is `time.time() - start < timeout`.  With each iteration
taking the 5 s sleep, iteration `i` starts at elapsed time `5 * i`, so the
loop body runs exactly for those `i` with `5 * i < timeout`, i.e.
`⌈timeout / 5⌉` times, before raising `"Apify timeout"`.  The sequence of
statuses the Apify API would report is abstracted as `statusAt : Nat →
ApifyRunInfo` (poll index ↦ response). -/

structure ApifyRunInfo where
  status : String
  defaultDatasetId : String
deriving DecidableEq

inductive PollResult where
  | dataset (datasetId : String)
  | runFailed (status : String)
  | timeout
deriving DecidableEq

/-- `status in ("FAILED", "ABORTED", "TIMED-OUT")` (line 98). -/
def isFailureStatus (s : String) : Bool :=
  s = "FAILED" || s = "ABORTED" || s = "TIMED-OUT"

/-- A status on which the loop stops polling. -/
def isTerminalStatus (s : String) : Bool :=
  s = "SUCCEEDED" || isFailureStatus s

/-- One-poll-per-iteration loop, with the remaining iteration budget as
fuel and `i` the current poll index. -/
def pollLoop (statusAt : Nat → ApifyRunInfo) : Nat → Nat → PollResult
  | _, 0 => PollResult.timeout
  | i, fuel + 1 =>
    let info := statusAt i
    if info.status = "SUCCEEDED" then PollResult.dataset info.defaultDatasetId
    else if isFailureStatus info.status then PollResult.runFailed info.status
    else pollLoop statusAt (i + 1) fuel

/-- Number of loop-body executions before the guard fails: the count of
`i` with `5 * i < timeout`. -/
def numPolls (timeout : Nat) : Nat := (timeout + 4) / 5

/-- `wait_for_apify_run(run_id, timeout=300)` (lines 85-103), with the
run's status trace abstracted as `statusAt`. -/
def wait_for_apify_run (statusAt : Nat → ApifyRunInfo)
    (timeout : Nat := 300) : PollResult :=
  pollLoop statusAt 0 (numPolls timeout)

/-! ## Scoring request construction (`analyze_with_gpt`, lines 116-152) -/

/-- The parts of the single-user-message content that depend on the
extracted media: `captions[:10]` serialized into the prompt text, and one
`input_image` part per URL in `images[:6]`. -/
structure GptRequestContent where
  promptCaptions : List String
  imageUrls : List String
deriving DecidableEq

/-- The content `analyze_with_gpt` builds: `captions[:10]` (line 132) and
`images[:6]` (line 137). -/
def gptRequestContent (images captions : List String) : GptRequestContent :=
  { promptCaptions := captions.take 10, imageUrls := images.take 6 }

/-- `analyze_with_gpt(images, captions)`: build the request content, send
it to the model, parse the response.  `respond` abstracts the OpenAI call
plus `json.loads` (an `Except.error` is a raised exception). -/
def analyze_with_gpt (respond : GptRequestContent → Except String GptAnalysis)
    (images captions : List String) : Except String GptAnalysis :=
  respond (gptRequestContent images captions)

/-! ## Posts extraction (lines 188-196) -/

/-- One row of the posts dataset (`p.get(...)` returns `None` when the
field is absent). -/
structure PostItem where
  displayUrl : Option String
  thumbnailUrl : Option String
  caption : Option String
  text : Option String
deriving DecidableEq

/-- One row of the profile dataset (only the fields lines 211-213 read). -/
structure ProfileItem where
  profilePicUrl : Option String
  followersCount : Option Int
  postsCount : Option Int
deriving DecidableEq

/-- Python truthiness of `None`-or-string: `None` and `""` are falsy. -/
def truthyStr : Option String → Option String
  | some s => if s = "" then none else some s
  | none => none

/-- Python `a or b` on `None`-or-string values: `a` if truthy, else `b`
verbatim. -/
def pyOrStr (a b : Option String) : Option String :=
  match truthyStr a with
  | some s => some s
  | none => b

/-- `img = p.get("displayUrl") or p.get("thumbnailUrl"); if img:
images.append(img)` over all posts (lines 190-193). -/
def extractImages (posts : List PostItem) : List String :=
  posts.filterMap (fun p => truthyStr (pyOrStr p.displayUrl p.thumbnailUrl))

/-- `text = p.get("caption") or p.get("text"); if text:
captions.append(text)` over all posts (lines 194-196). -/
def extractCaptions (posts : List PostItem) : List String :=
  posts.filterMap (fun p => truthyStr (pyOrStr p.caption p.text))

/-! ## Analysis pipeline and executor boundary (`run_analysis`, 157-231) -/

/-- The payload `start_apify_task` posts (lines 165-168, 178-184). -/
structure StartPayload where
  instagramUrls : List String
  resultsLimit : Option Nat
deriving DecidableEq

/-- The external world as seen by one `run_analysis` execution.  Each
field abstracts one network call site; an `Except.error` is an exception
raised by that call (connection errors, `start_apify_task`'s non-2xx
`RuntimeError`, `wait_for_apify_run`'s failure/timeout `RuntimeError`s,
a `json.loads` parse failure, ...). -/
structure Env where
  profileStart : StartPayload → Except String String
  profileWait : String → Except String String
  profileFetch : String → Except String (List ProfileItem)
  postsStart : StartPayload → Except String String
  postsWait : String → Except String String
  postsFetch : String → Except String (List PostItem)
  gptRespond : GptRequestContent → Except String GptAnalysis

/-- The body of `run_analysis`'s `try:` block (lines 159-220), as a value:
`Except.error` is the exception that reaches the `except` handler. -/
def pipeline (env : Env) (username : String) : Except String AnalysisResult :=
  let raw := normalizeUsername username
  let instagram_url := instagramUrl raw
  match env.profileStart { instagramUrls := [instagram_url], resultsLimit := none } with
  | .error e => .error e
  | .ok profile_run =>
  match env.profileWait profile_run with
  | .error e => .error e
  | .ok profile_dataset =>
  match env.profileFetch profile_dataset with
  | .error e => .error e
  | .ok profile_items =>
  match profile_items with
  | [] => .error "Perfil no encontrado"
  | profile :: _ =>
  match env.postsStart { instagramUrls := [instagram_url], resultsLimit := some 15 } with
  | .error e => .error e
  | .ok posts_run =>
  match env.postsWait posts_run with
  | .error e => .error e
  | .ok posts_dataset =>
  match env.postsFetch posts_dataset with
  | .error e => .error e
  | .ok posts_data =>
  let images := extractImages posts_data
  let captions := extractCaptions posts_data
  if images = [] then .error "No se encontraron imágenes"
  else
  match analyze_with_gpt env.gptRespond images captions with
  | .error e => .error e
  | .ok analysis =>
    .ok { username := raw
          icon := profile.profilePicUrl
          followers := profile.followersCount
          posts := profile.postsCount
          total_score := total_score analysis.scores
          scores := analysis.scores
          dominant_content_type := analysis.dominant_content_type
          interpretation := analysis.interpretation }

/-- `run_analysis(job_id, username)` (lines 157-231): run the pipeline;
on success `setex` the done state, on any exception `setex` the error
state.  `now` is the time of the terminal write. -/
def run_analysis (env : Env) (js : JobStore) (now : Nat)
    (jobId username : String) : JobStore :=
  match pipeline env username with
  | .ok result => jobSetex js now jobId 3600 (JobState.done result)
  | .error e => jobSetex js now jobId 3600 (JobState.error e)

/-! ## HTTP-facing operations (lines 236-257) -/

/-- `POST /analysis/start` (lines 236-250): rate-limit, then create the
job as `processing` with a 3600 s TTL and spawn the worker.  `none` is the
429 rejection (raised before any store write).  The spawned worker's
eventual terminal write is `run_analysis`, modelled separately. -/
def start_analysis (rs : RateStore) (js : JobStore) (now : Nat)
    (ip jobId : String) : Option (RateStore × JobStore) :=
  match rate_limit rs now ip with
  | (RateDecision.denied, _) => none
  | (RateDecision.allowed, rs2) =>
      some (rs2, jobSetex js now jobId 3600 JobState.processing)

/-- `GET /analysis/status/{job_id}` (lines 252-257): the stored state, or
`none` for the 404 "Job expirado o no encontrado". -/
def analysis_status (js : JobStore) (now : Nat) (jobId : String) :
    Option JobState :=
  jobGet js now jobId

/-- Run a sequence of `start_analysis` calls from one client `ip`, each
given as (time, fresh job id); record for each call whether it was
admitted, and thread the stores. -/
def simulateStarts (ip : String) :
    List (Nat × String) → RateStore → JobStore →
    List Bool × RateStore × JobStore
  | [], rs, js => ([], rs, js)
  | (t, jid) :: rest, rs, js =>
    match start_analysis rs js t ip jid with
    | some (rs2, js2) =>
        let out := simulateStarts ip rest rs2 js2
        (true :: out.1, out.2)
    | none =>
        let out := simulateStarts ip rest rs js
        (false :: out.1, out.2)

/-! ## Helper lemmas -/

/-- Python `round` of an exact integer is that integer. -/
theorem pyRoundInt_intCast (n : ℤ) : pyRoundInt (n : ℚ) = n := by
  simp [pyRoundInt, Int.floor_intCast]

/-- For integer dimension scores, `round(sum / 5 * 10, 1)` is exactly
`2 * sum` (the value `s / 5 * 10` times 10 is the integer `20 * s`, so the
rounding is exact). -/
theorem total_score_eq_two_mul (s : ScoresObj) :
    total_score s = 2 * (scoresSum s : ℚ) := by
  have h : ((scoresSum s : ℚ) / 5 * 10) * 10 = ((20 * scoresSum s : ℤ) : ℚ) := by
    push_cast; ring
  unfold total_score pyRound1
  rw [h, pyRoundInt_intCast]
  push_cast; ring

/-- All five dimension scores are integers in `[1, 5]`. -/
def scoresInRange (s : ScoresObj) : Prop :=
  (1 ≤ s.paleta_colores ∧ s.paleta_colores ≤ 5)
  ∧ (1 ≤ s.ruido_visual ∧ s.ruido_visual ≤ 5)
  ∧ (1 ≤ s.consistencia_grafica ∧ s.consistencia_grafica ≤ 5)
  ∧ (1 ≤ s.calidad_visual ∧ s.calidad_visual ≤ 5)
  ∧ (1 ≤ s.presencia_humana ∧ s.presencia_humana ≤ 5)

instance (s : ScoresObj) : Decidable (scoresInRange s) := by
  unfold scoresInRange; infer_instance

/-- The §8/§9 example scores `{5, 4, 5, 4, 3}`. -/
def sCex : ScoresObj :=
  { paleta_colores := 5, ruido_visual := 4, consistencia_grafica := 5
    calidad_visual := 4, presencia_humana := 3 }

/-! ## C1 -/

/-- C1 counterexample: for the in-range scores `{5, 4, 5, 4, 3}` the code
computes `total_score = 42.0`, which does not lie in `[2.0, 10.0]`. -/
theorem total_score_not_in_2_10 :
    scoresInRange sCex ∧ total_score sCex = 42
    ∧ ¬((2 : ℚ) ≤ total_score sCex ∧ total_score sCex ≤ 10) := by
  refine ⟨by decide, ?_, ?_⟩
  · rw [total_score_eq_two_mul]; norm_num [scoresSum, sCex]
  · rw [total_score_eq_two_mul]
    norm_num [scoresSum, sCex]

/-- C1 (amended): for every analysis whose five dimension scores are
integers in `[1, 5]`, the aggregated `total_score` lies in `[10.0, 50.0]`
(the code scales the 1–5 average by 10, so the bottom of the range is
10.0, not 2.0). -/
theorem total_score_in_10_50 (s : ScoresObj) (h : scoresInRange s) :
    (10 : ℚ) ≤ total_score s ∧ total_score s ≤ 50 := by
  obtain ⟨⟨h1a, h1b⟩, ⟨h2a, h2b⟩, ⟨h3a, h3b⟩, ⟨h4a, h4b⟩, ⟨h5a, h5b⟩⟩ := h
  rw [total_score_eq_two_mul]
  have hs1 : (5 : ℤ) ≤ scoresSum s := by unfold scoresSum; omega
  have hs2 : scoresSum s ≤ 25 := by unfold scoresSum; omega
  constructor
  · have hq : (5 : ℚ) ≤ (scoresSum s : ℚ) := by exact_mod_cast hs1
    linarith
  · have hq : (scoresSum s : ℚ) ≤ 25 := by exact_mod_cast hs2
    linarith

/-- Witness for C1 (amended) at the concrete scores `{5, 4, 5, 4, 3}`. -/
theorem total_score_in_10_50_witness :
    scoresInRange sCex
    ∧ ((10 : ℚ) ≤ total_score sCex ∧ total_score sCex ≤ 50) :=
  ⟨by decide, total_score_in_10_50 sCex (by decide)⟩

/-! ## C2 -/

/-- C2: whenever the pipeline succeeds, the `total_score` of the result it
assembles equals `round(sum(scores.values()) / 5 * 10, 1)` for the very
scores stored in the result, and in particular is a multiple of `0.1`. -/
theorem pipeline_total_score_formula (env : Env) (username : String)
    (r : AnalysisResult) (h : pipeline env username = .ok r) :
    r.total_score = pyRound1 ((scoresSum r.scores : ℚ) / 5 * 10)
    ∧ ∃ k : ℤ, r.total_score = (k : ℚ) / 10 := by
  unfold pipeline at h
  dsimp only at h
  repeat' split at h
  any_goals exact (Except.noConfusion h)
  injection h with h
  subst h
  exact ⟨rfl, ⟨pyRoundInt _, rfl⟩⟩


/-- A fully successful environment: profile found, one usable post,
well-formed scoring response with the §8 example scores. -/
def envOk : Env :=
  { profileStart := fun _ => .ok "run-p"
    profileWait := fun _ => .ok "ds-p"
    profileFetch := fun _ => .ok
      [{ profilePicUrl := some "pic", followersCount := some 100, postsCount := some 10 }]
    postsStart := fun _ => .ok "run-q"
    postsWait := fun _ => .ok "ds-q"
    postsFetch := fun _ => .ok
      [{ displayUrl := some "img1", thumbnailUrl := none, caption := some "c1", text := none }]
    gptRespond := fun _ => .ok
      { scores := sCex, dominant_content_type := "mixto", interpretation := "ok" } }

/-- The result `pipeline envOk "@Foo"` assembles. -/
def rOk : AnalysisResult :=
  { username := "Foo", icon := some "pic", followers := some 100, posts := some 10
    total_score := total_score sCex, scores := sCex
    dominant_content_type := "mixto", interpretation := "ok" }

/-- Witness for C2 at a concrete successful run. -/
theorem pipeline_total_score_formula_witness :
    rOk.total_score = pyRound1 ((scoresSum rOk.scores : ℚ) / 5 * 10)
    ∧ ∃ k : ℤ, rOk.total_score = (k : ℚ) / 10 :=
  pipeline_total_score_formula envOk "@Foo" rOk (by rfl)

/-! ## C3 -/

/-- C3: for every environment (hence every combination of collaborator
outcomes, including profile-not-found, no-usable-images, start/poll
failures and unparseable scoring responses), `run_analysis` produces a
store in which the job is present with a terminal state: `done` with the
pipeline's result on success, `error` with the exception's message on any
failure.  The function is total, so no exception escapes the boundary. -/
theorem run_analysis_terminal_write (env : Env) (js : JobStore) (now : Nat)
    (jobId username : String) :
    ∃ st : JobState,
      analysis_status (run_analysis env js now jobId username) now jobId = some st
      ∧ st.isTerminal = true
      ∧ st = (match pipeline env username with
              | .ok r => JobState.done r
              | .error e => JobState.error e) := by
  cases hp : pipeline env username with
  | ok r =>
      refine ⟨JobState.done r, ?_, rfl, rfl⟩
      unfold analysis_status run_analysis
      rw [hp]
      simp [jobGet, jobSetex]
  | error e =>
      refine ⟨JobState.error e, ?_, rfl, rfl⟩
      unfold analysis_status run_analysis
      rw [hp]
      simp [jobGet, jobSetex]

/-! ## C4 -/

/-- If no poll ever observes a terminal status, the loop exhausts its
iteration budget and raises the timeout error. -/
theorem pollLoop_never_terminal (statusAt : Nat → ApifyRunInfo) :
    ∀ fuel i, (∀ k, isTerminalStatus (statusAt k).status = false) →
      pollLoop statusAt i fuel = PollResult.timeout := by
  intro fuel
  induction fuel with
  | zero => intro i _; rfl
  | succ n ih =>
      intro i h
      have h0 := h i
      unfold isTerminalStatus at h0
      rw [Bool.or_eq_false_iff] at h0
      obtain ⟨h1, h2⟩ := h0
      simp only [pollLoop]
      rw [if_neg (by simpa using h1), if_neg (by simp [h2])]
      exact ih (i + 1) h

/-- The loop stops at the first poll observing a terminal status and
classifies it: dataset on `SUCCEEDED`, failure otherwise. -/
theorem pollLoop_first_terminal (statusAt : Nat → ApifyRunInfo) :
    ∀ j fuel i, j < fuel →
      (∀ k, k < j → isTerminalStatus (statusAt (i + k)).status = false) →
      isTerminalStatus (statusAt (i + j)).status = true →
      pollLoop statusAt i fuel =
        (if (statusAt (i + j)).status = "SUCCEEDED"
         then PollResult.dataset (statusAt (i + j)).defaultDatasetId
         else PollResult.runFailed (statusAt (i + j)).status) := by
  intro j
  induction j with
  | zero =>
      intro fuel i hlt hbefore hterm
      obtain ⟨m, rfl⟩ : ∃ m, fuel = m + 1 := ⟨fuel - 1, by omega⟩
      simp only [Nat.add_zero] at hterm ⊢
      simp only [pollLoop]
      by_cases hs : (statusAt i).status = "SUCCEEDED"
      · rw [if_pos hs, if_pos hs]
      · rw [if_neg hs, if_neg hs]
        have hf : isFailureStatus (statusAt i).status = true := by
          unfold isTerminalStatus at hterm
          rw [Bool.or_eq_true_iff] at hterm
          rcases hterm with hterm | hterm
          · exact absurd (by simpa using hterm) hs
          · exact hterm
        rw [if_pos hf]
  | succ m ih =>
      intro fuel i hlt hbefore hterm
      obtain ⟨n, rfl⟩ : ∃ n, fuel = n + 1 := ⟨fuel - 1, by omega⟩
      have h0 := hbefore 0 (Nat.succ_pos m)
      simp only [Nat.add_zero] at h0
      unfold isTerminalStatus at h0
      rw [Bool.or_eq_false_iff] at h0
      obtain ⟨h1, h2⟩ := h0
      have hshift : i + (m + 1) = (i + 1) + m := by omega
      rw [hshift] at hterm ⊢
      simp only [pollLoop]
      rw [if_neg (by simpa using h1), if_neg (by simp [h2])]
      exact ih n (i + 1) (by omega)
        (fun k hk => by
          have hb := hbefore (k + 1) (by omega)
          have : i + (k + 1) = (i + 1) + k := by omega
          rwa [this] at hb)
        hterm

/-- C4: `wait_for_apify_run` always terminates (it is a total function of
its iteration budget `numPolls timeout = ⌈timeout / 5⌉`); a run that never
leaves `RUNNING` yields the timeout error once the overall duration
elapses; and the loop stops at the first terminal status observed within
the budget, returning the dataset reference on `SUCCEEDED` and failing on
`FAILED` / `ABORTED` / `TIMED-OUT`. -/
theorem wait_for_apify_run_poll_contract (statusAt : Nat → ApifyRunInfo)
    (timeout : Nat) :
    ((∀ k, (statusAt k).status = "RUNNING") →
        wait_for_apify_run statusAt timeout = PollResult.timeout)
    ∧ (∀ j, j < numPolls timeout →
        (∀ k, k < j → isTerminalStatus (statusAt k).status = false) →
        isTerminalStatus (statusAt j).status = true →
        wait_for_apify_run statusAt timeout =
          (if (statusAt j).status = "SUCCEEDED"
           then PollResult.dataset (statusAt j).defaultDatasetId
           else PollResult.runFailed (statusAt j).status)) := by
  constructor
  · intro h
    exact pollLoop_never_terminal statusAt (numPolls timeout) 0
      (fun k => by rw [h k]; rfl)
  · intro j hj hb ht
    have hres := pollLoop_first_terminal statusAt j (numPolls timeout) 0 hj
      (fun k hk => by simpa using hb k hk) (by simpa using ht)
    simpa using hres

/-- A run that reports `RUNNING` at every poll. -/
def runningForever : Nat → ApifyRunInfo :=
  fun _ => { status := "RUNNING", defaultDatasetId := "" }

/-- A run that succeeds at the third poll. -/
def succeedsAtTwo : Nat → ApifyRunInfo :=
  fun k =>
    if k < 2 then { status := "RUNNING", defaultDatasetId := "" }
    else { status := "SUCCEEDED", defaultDatasetId := "ds-1" }

/-- Witness for C4: with the default 300 s timeout, a never-terminal run
times out, and a run succeeding at the third poll returns its dataset. -/
theorem wait_for_apify_run_poll_contract_witness :
    wait_for_apify_run runningForever 300 = PollResult.timeout
    ∧ wait_for_apify_run succeedsAtTwo 300 = PollResult.dataset "ds-1" := by
  constructor
  · exact (wait_for_apify_run_poll_contract runningForever 300).1 (fun _ => rfl)
  · have h := (wait_for_apify_run_poll_contract succeedsAtTwo 300).2 2 (by decide)
      (fun k hk => by interval_cases k <;> decide) (by decide)
    simpa [succeedsAtTwo] using h

/-! ## C5 -/

/-- An absent or expired counter admits the call and runs the
`INCR` + `EXPIRE` pipeline. -/
theorem rate_limit_fresh (rs : RateStore) (now : Nat) (ip : String)
    (h : rateGet rs now ip = none) :
    rate_limit rs now ip = (RateDecision.allowed, ratePipeline rs now ip) := by
  unfold rate_limit
  rw [h]

/-- A live counter below the threshold admits the call and runs the
`INCR` + `EXPIRE` pipeline. -/
theorem rate_limit_live_allowed (rs : RateStore) (now : Nat) (ip : String)
    (c : Nat) (h : rateGet rs now ip = some c) (hc : c < 5) :
    rate_limit rs now ip = (RateDecision.allowed, ratePipeline rs now ip) := by
  unfold rate_limit
  rw [h]
  dsimp only
  rw [if_neg (by omega)]

/-- A live counter at or above the threshold denies the call before the
pipeline runs. -/
theorem rate_limit_live_denied (rs : RateStore) (now : Nat) (ip : String)
    (c : Nat) (h : rateGet rs now ip = some c) (hc : 5 ≤ c) :
    rate_limit rs now ip = (RateDecision.denied, rs) := by
  unfold rate_limit
  rw [h]
  dsimp only
  rw [if_pos hc]

/-- Reading a live entry yields its counter value. -/
theorem rateGet_of_entry (rs : RateStore) (now : Nat) (ip : String)
    (c texp : Nat)
    (hentry : rs ip = some { count := c, expiresAt := some texp })
    (halive : now < texp) :
    rateGet rs now ip = some c := by
  unfold rateGet
  rw [hentry]
  simp [aliveAt, halive]

/-- The `INCR` + `EXPIRE` pipeline leaves the client's entry at the
incremented count (1 if the key was absent or expired) with expiry
`now + 3600`. -/
theorem ratePipeline_entry (rs : RateStore) (now : Nat) (ip : String) :
    ratePipeline rs now ip ip
      = some { count := (match rateGet rs now ip with
                         | some c => c + 1
                         | none => 1),
               expiresAt := some (now + 3600) } := by
  unfold ratePipeline rateGet
  dsimp only
  rw [if_pos rfl]
  cases hrs : rs ip with
  | none => rfl
  | some e =>
      dsimp only
      by_cases halive : aliveAt now e.expiresAt = true
      · rw [if_pos halive, if_pos halive]
      · rw [if_neg halive, if_neg halive]

/-- `ratePipeline_entry` when the counter was read as `some c`. -/
theorem ratePipeline_entry_of_get (rs : RateStore) (now : Nat) (ip : String)
    (c : Nat) (h : rateGet rs now ip = some c) :
    ratePipeline rs now ip ip
      = some { count := c + 1, expiresAt := some (now + 3600) } := by
  rw [ratePipeline_entry, h]

/-- `ratePipeline_entry` when the counter was absent or expired. -/
theorem ratePipeline_entry_of_none (rs : RateStore) (now : Nat) (ip : String)
    (h : rateGet rs now ip = none) :
    ratePipeline rs now ip ip
      = some { count := 1, expiresAt := some (now + 3600) } := by
  rw [ratePipeline_entry, h]

/-- C5: for any client, any six consecutive `start` calls at monotone
times all within 3600 s of the first (one rate window), any fresh job ids
and any initial job store, the first 5 calls are admitted and the 6th is
denied, with no job entry ever created (or touched) for the denied
call. -/
theorem start_analysis_sixth_call_denied
    (ip : String) (t1 t2 t3 t4 t5 t6 : Nat)
    (j1 j2 j3 j4 j5 j6 : String) (js0 : JobStore)
    (h12 : t1 ≤ t2) (h23 : t2 ≤ t3) (h34 : t3 ≤ t4) (h45 : t4 ≤ t5)
    (h56 : t5 ≤ t6) (hwin : t6 < t1 + 3600)
    (hd1 : j6 ≠ j1) (hd2 : j6 ≠ j2) (hd3 : j6 ≠ j3) (hd4 : j6 ≠ j4)
    (hd5 : j6 ≠ j5) :
    (simulateStarts ip [(t1, j1), (t2, j2), (t3, j3), (t4, j4), (t5, j5), (t6, j6)]
        emptyRateStore js0).1 = [true, true, true, true, true, false]
    ∧ (simulateStarts ip [(t1, j1), (t2, j2), (t3, j3), (t4, j4), (t5, j5), (t6, j6)]
        emptyRateStore js0).2.2 j6 = js0 j6 := by
  have hg1 : rateGet emptyRateStore t1 ip = none := rfl
  have hal1 : rate_limit emptyRateStore t1 ip
      = (RateDecision.allowed, ratePipeline emptyRateStore t1 ip) :=
    rate_limit_fresh _ _ _ hg1
  set rs1 := ratePipeline emptyRateStore t1 ip with hrs1
  have he1 : rs1 ip = some { count := 1, expiresAt := some (t1 + 3600) } :=
    ratePipeline_entry_of_none _ _ _ hg1
  have hg2 : rateGet rs1 t2 ip = some 1 :=
    rateGet_of_entry _ _ _ _ _ he1 (by omega)
  have hal2 : rate_limit rs1 t2 ip
      = (RateDecision.allowed, ratePipeline rs1 t2 ip) :=
    rate_limit_live_allowed _ _ _ _ hg2 (by omega)
  set rs2 := ratePipeline rs1 t2 ip with hrs2
  have he2 : rs2 ip = some { count := 2, expiresAt := some (t2 + 3600) } :=
    ratePipeline_entry_of_get _ _ _ _ hg2
  have hg3 : rateGet rs2 t3 ip = some 2 :=
    rateGet_of_entry _ _ _ _ _ he2 (by omega)
  have hal3 : rate_limit rs2 t3 ip
      = (RateDecision.allowed, ratePipeline rs2 t3 ip) :=
    rate_limit_live_allowed _ _ _ _ hg3 (by omega)
  set rs3 := ratePipeline rs2 t3 ip with hrs3
  have he3 : rs3 ip = some { count := 3, expiresAt := some (t3 + 3600) } :=
    ratePipeline_entry_of_get _ _ _ _ hg3
  have hg4 : rateGet rs3 t4 ip = some 3 :=
    rateGet_of_entry _ _ _ _ _ he3 (by omega)
  have hal4 : rate_limit rs3 t4 ip
      = (RateDecision.allowed, ratePipeline rs3 t4 ip) :=
    rate_limit_live_allowed _ _ _ _ hg4 (by omega)
  set rs4 := ratePipeline rs3 t4 ip with hrs4
  have he4 : rs4 ip = some { count := 4, expiresAt := some (t4 + 3600) } :=
    ratePipeline_entry_of_get _ _ _ _ hg4
  have hg5 : rateGet rs4 t5 ip = some 4 :=
    rateGet_of_entry _ _ _ _ _ he4 (by omega)
  have hal5 : rate_limit rs4 t5 ip
      = (RateDecision.allowed, ratePipeline rs4 t5 ip) :=
    rate_limit_live_allowed _ _ _ _ hg5 (by omega)
  set rs5c := ratePipeline rs4 t5 ip with hrs5
  have he5 : rs5c ip = some { count := 5, expiresAt := some (t5 + 3600) } :=
    ratePipeline_entry_of_get _ _ _ _ hg5
  have hg6 : rateGet rs5c t6 ip = some 5 :=
    rateGet_of_entry _ _ _ _ _ he5 (by omega)
  have hal6 : rate_limit rs5c t6 ip = (RateDecision.denied, rs5c) :=
    rate_limit_live_denied _ _ _ _ hg6 (by omega)
  refine ⟨?_, ?_⟩ <;>
    simp [simulateStarts, start_analysis, jobSetex,
          hal1, hal2, hal3, hal4, hal5, hal6, hd1, hd2, hd3, hd4, hd5]

/-- Witness for C5 at a concrete schedule: client `"c"`, calls at
0, 600, ..., 3000 s with job ids `"j1"`..`"j6"` from empty stores. -/
theorem start_analysis_sixth_call_denied_witness :
    (simulateStarts "c"
        [(0, "j1"), (600, "j2"), (1200, "j3"), (1800, "j4"), (2400, "j5"), (3000, "j6")]
        emptyRateStore emptyJobStore).1 = [true, true, true, true, true, false]
    ∧ (simulateStarts "c"
        [(0, "j1"), (600, "j2"), (1200, "j3"), (1800, "j4"), (2400, "j5"), (3000, "j6")]
        emptyRateStore emptyJobStore).2.2 "j6" = emptyJobStore "j6" :=
  start_analysis_sixth_call_denied "c" 0 600 1200 1800 2400 3000
    "j1" "j2" "j3" "j4" "j5" "j6" emptyJobStore
    (by decide) (by decide) (by decide) (by decide) (by decide) (by decide)
    (by decide) (by decide) (by decide) (by decide) (by decide)

/-! ## C6 -/

/-- A rate store whose counter for client `"c"` is a live 5. -/
def rs5 : RateStore :=
  fun k => if k = "c" then some { count := 5, expiresAt := some 9999 } else none

/-- C6 counterexample: a denied `admit` call leaves the counter at 5 — it
is not incremented to 6, because the code raises the 429 before the
`INCR`/`EXPIRE` pipeline runs. -/
theorem rate_limit_denied_no_increment_cex :
    (rate_limit rs5 0 "c").1 = RateDecision.denied
    ∧ rateGet (rate_limit rs5 0 "c").2 0 "c" = some 5
    ∧ ¬ rateGet (rate_limit rs5 0 "c").2 0 "c" = some 6 := by
  refine ⟨by decide, by decide, by decide⟩

/-- C6 (amended): a denied call leaves the rate store entirely unchanged;
the admission check happens before the increment, so the denied attempt
does not count toward the window. -/
theorem rate_limit_denied_store_unchanged (rs : RateStore) (now : Nat)
    (ip : String) (c : Nat) (hget : rateGet rs now ip = some c)
    (hc : 5 ≤ c) :
    rate_limit rs now ip = (RateDecision.denied, rs) := by
  unfold rate_limit
  rw [hget]
  dsimp only
  rw [if_pos hc]

/-- Witness for C6 (amended) at the concrete store `rs5`. -/
theorem rate_limit_denied_store_unchanged_witness :
    rate_limit rs5 0 "c" = (RateDecision.denied, rs5) :=
  rate_limit_denied_store_unchanged rs5 0 "c" 5 (by decide) (by decide)

/-! ## C7 -/

/-- After the `INCR` + `EXPIRE` pipeline at time `now`, the client's entry
has expiry exactly `now + 3600`. -/
theorem ratePipeline_self (rs : RateStore) (now : Nat) (ip : String) :
    ∃ n, ratePipeline rs now ip ip
      = some { count := n, expiresAt := some (now + 3600) } := by
  unfold ratePipeline
  simp only [if_pos rfl]
  exact ⟨_, rfl⟩

/-- C7 counterexample: the second admitted call of a window does reset the
window's expiry — after a first call at t = 0 the expiry is 3600, and a
second admitted call at t = 100 moves it to 3700. -/
theorem rate_window_expiry_reset_cex :
    ((rate_limit emptyRateStore 0 "c").2 "c"
        = some { count := 1, expiresAt := some 3600 })
    ∧ ((rate_limit (rate_limit emptyRateStore 0 "c").2 100 "c").2 "c"
        = some { count := 2, expiresAt := some 3700 })
    ∧ (3700 : Nat) ≠ 3600 := by
  refine ⟨by decide, by decide, by decide⟩

/-- C7 (amended): every admitted call — not only the first of a window —
sets the window's expiry to `now + 3600` (the `EXPIRE` is executed
unconditionally after the `INCR`). -/
theorem rate_limit_allowed_resets_expiry (rs : RateStore) (now : Nat)
    (ip : String) (h : (rate_limit rs now ip).1 = RateDecision.allowed) :
    ∃ n, (rate_limit rs now ip).2 ip
      = some { count := n, expiresAt := some (now + 3600) } := by
  unfold rate_limit at h ⊢
  cases hg : rateGet rs now ip with
  | none =>
      dsimp only
      exact ratePipeline_self rs now ip
  | some c =>
      rw [hg] at h
      dsimp only at h ⊢
      by_cases hc : 5 ≤ c
      · rw [if_pos hc] at h
        simp at h
      · rw [if_neg hc]
        exact ratePipeline_self rs now ip

/-- Witness for C7 (amended): the first call from an empty store is
admitted and its entry's expiry is `0 + 3600`. -/
theorem rate_limit_allowed_resets_expiry_witness :
    ∃ n, (rate_limit emptyRateStore 0 "c").2 "c"
      = some { count := n, expiresAt := some (0 + 3600) } :=
  rate_limit_allowed_resets_expiry emptyRateStore 0 "c" (by decide)

/-! ## C8 -/

/-- An environment whose profile fetch yields zero rows, so the pipeline
fails with `"Perfil no encontrado"`. -/
def envProfileNotFound : Env :=
  { profileStart := fun _ => .ok "run-p"
    profileWait := fun _ => .ok "ds-p"
    profileFetch := fun _ => .ok []
    postsStart := fun _ => .ok "run-q"
    postsWait := fun _ => .ok "ds-q"
    postsFetch := fun _ => .ok []
    gptRespond := fun _ => .error "unused" }

/-- C8 counterexample: a job created at t = 0 whose terminal write happens
at t = 100 is still retrievable at t = 3650 > creation + 3600, because the
terminal `setex` refreshed the TTL to 3600 s from the write; the entry is
not unrecoverable at a fixed 3600 s from creation. -/
theorem job_ttl_not_fixed_from_creation_cex :
    analysis_status
      (run_analysis envProfileNotFound
        (jobSetex emptyJobStore 0 "job-1" 3600 JobState.processing)
        100 "job-1" "foo")
      3650 "job-1"
      = some (JobState.error "Perfil no encontrado") := by
  decide

/-- C8 (amended): every write stores the entry with a TTL of 3600 s from
the write time: after a `setex` at time `w`, a status query at time `t`
returns the written state iff `t < w + 3600` and `NotFound` afterwards.
The entry therefore lives 3600 s from its last write, not from its
creation. -/
theorem job_ttl_from_last_write (js : JobStore) (w t : Nat)
    (jobId : String) (v : JobState) :
    analysis_status (jobSetex js w jobId 3600 v) t jobId
      = if t < w + 3600 then some v else none := by
  unfold analysis_status jobGet jobSetex
  simp

/-! ## C9 -/

/-- Stripping whitespace from both ends yields a sublist. -/
theorem stripChars_sublist (l : List Char) : (stripChars l).Sublist l := by
  have h1 : (l.dropWhile pyIsSpace).Sublist l := List.dropWhile_sublist pyIsSpace
  have h2 : ((l.dropWhile pyIsSpace).reverse.dropWhile pyIsSpace).Sublist
      (l.dropWhile pyIsSpace).reverse := List.dropWhile_sublist pyIsSpace
  have h3 := h2.reverse
  rw [List.reverse_reverse] at h3
  exact h3.trans h1

/-- C9 counterexample: for the submitted identity `"@A@b"` the code
produces the raw value `"Ab"` — every `@` is removed (not only the
leading one) and the case is preserved — whereas the claimed
normalization (strip the leading `@`, lower-case) would produce
`"a@b"`. -/
theorem normalize_username_cex :
    normalizeUsername "@A@b" = "Ab" ∧ ("Ab" : String) ≠ "a@b" := by
  refine ⟨by decide, by decide⟩

/-- C9 (amended): normalization removes every `@` character and strips
surrounding whitespace, preserving the remaining characters — including
their case, since the result is a sublist of the input — and the canonical
profile URL is `https://www.instagram.com/{raw}/`; no lower-casing is
applied. -/
theorem normalize_username_amended (s : String) :
    '@' ∉ (normalizeUsername s).data
    ∧ (normalizeUsername s).data.Sublist s.data
    ∧ normalizeUsername ("@" ++ s) = normalizeUsername s
    ∧ normalizeUsername (" " ++ s) = normalizeUsername s
    ∧ instagramUrl (normalizeUsername s)
        = "https://www.instagram.com/" ++ normalizeUsername s ++ "/" := by
  have hsub : (normalizeUsername s).data.Sublist
      (s.data.filter (fun c => decide (c ≠ '@'))) := stripChars_sublist _
  refine ⟨?_, ?_, ?_, ?_, rfl⟩
  · intro hmem
    have hmem2 := hsub.subset hmem
    rw [List.mem_filter] at hmem2
    simp at hmem2
  · exact hsub.trans (List.filter_sublist s.data)
  · show pyStrip (removeAtSigns ("@" ++ s)) = pyStrip (removeAtSigns s)
    have h2 : ("@" ++ s).data = '@' :: s.data := by
      rw [String.data_append]
      rfl
    have h3 : removeAtSigns ("@" ++ s) = removeAtSigns s := by
      unfold removeAtSigns
      rw [h2]
      simp [List.filter]
    rw [h3]
  · have h2 : (" " ++ s).data = ' ' :: s.data := by
      rw [String.data_append]
      rfl
    show String.mk (stripChars ((" " ++ s).data.filter (fun c => decide (c ≠ '@'))))
        = String.mk (stripChars (s.data.filter (fun c => decide (c ≠ '@'))))
    rw [h2, List.filter_cons_of_pos (by decide)]
    unfold stripChars
    rw [List.dropWhile_cons_of_pos (by decide)]

/-! ## C10 -/

/-- C10: every scoring invocation receives as request content exactly
`images[:6]` as image inputs — hence at most the first 6 extracted image
URLs, a sublist of the extracted list — and `captions[:10]` as prompt
context — at most the first 10 extracted captions — regardless of how many
images and captions were extracted. -/
theorem analyze_with_gpt_caps
    (respond : GptRequestContent → Except String GptAnalysis)
    (images captions : List String) :
    ∃ content : GptRequestContent,
      analyze_with_gpt respond images captions = respond content
      ∧ content.imageUrls = images.take 6
      ∧ content.imageUrls.length ≤ 6
      ∧ content.imageUrls.Sublist images
      ∧ content.promptCaptions = captions.take 10
      ∧ content.promptCaptions.length ≤ 10
      ∧ content.promptCaptions.Sublist captions :=
  ⟨gptRequestContent images captions, rfl, rfl,
    List.length_take_le 6 images, List.take_sublist 6 images, rfl,
    List.length_take_le 10 captions, List.take_sublist 10 captions⟩
